import Mathlib

/-!
# Verification of the Friends app integration layer

A shallow embedding, in Lean, of the small React
Native "Friends" application: anonymous-identity handling
(`src/services/firebase.ts`), the onboarding form submission
(`OnboardingScreen.handleSubmit`), the roster fetch
(`FriendsTab.fetchUsers`), the album feed and upload
(`AlbumTab`), and the Cloudinary helpers
(`src/services/cloudinary.ts`).

JavaScript strings are modelled as `List Char` where character-level
reasoning (trimming, the date regex) is needed, and as Lean `String`
where they are opaque payloads (UIDs, URLs).  Stateful SDK calls are
modelled as explicit state passing; every operation additionally
returns the list of external-service events it performed, so that
"no network call happens" claims are statements about an empty
event trace.
-/

/-! ## Characters and trimming -/

/-- Whitespace characters stripped by JavaScript's `String.prototype.trim`
(restricted to the ASCII whitespace relevant here; none of the inputs in
the claims involve exotic Unicode spaces). -/
def isJsSpace (c : Char) : Bool :=
  c = ' ' || c = '\t' || c = '\n' || c = '\r' || c = '\x0b' || c = '\x0c'

/-- JavaScript `s.trim()`: drop whitespace from both ends. -/
def trimList (l : List Char) : List Char :=
  ((l.dropWhile isJsSpace).reverse.dropWhile isJsSpace).reverse

/-- The anchored regex `/^\d{4}-\d{2}-\d{2}$/` from
`OnboardingScreen.handleSubmit` (line 36 of the onboarding screen):
exactly four digits, a hyphen, two digits, a hyphen, two digits. -/
def dateRegexTest : List Char → Bool
  | [y1, y2, y3, y4, s1, m1, m2, s2, d1, d2] =>
    y1.isDigit && y2.isDigit && y3.isDigit && y4.isDigit && s1 = '-' &&
    m1.isDigit && m2.isDigit && s2 = '-' && d1.isDigit && d2.isDigit
  | _ => false

/-! ## Identity bridge (`src/services/firebase.ts`)

The hosted auth service's device-local state: the currently signed-in
anonymous UID, if any, plus the UID the service would mint on the next
anonymous sign-in. -/

structure AuthState where
  currentUser : Option String
  freshUid : String
deriving DecidableEq

/-- `getCurrentUserUID` (firebase.ts line 45): the current user's UID
or `null`. -/
def getCurrentUserUID (a : AuthState) : Option String :=
  a.currentUser

/-- `signInAnonymously` (firebase.ts line 31): the hosted service mints
a fresh anonymous identity and signs it in. -/
def signInAnonymously (a : AuthState) : String × AuthState :=
  (a.freshUid, { a with currentUser := some a.freshUid })

/-- `ensureAuthenticated` (firebase.ts line 54): return the current UID
if one exists, otherwise sign in anonymously. -/
def ensureAuthenticated (a : AuthState) : String × AuthState :=
  match getCurrentUserUID a with
  | some currentUID => (currentUID, a)
  | none => signInAnonymously a

/-- `signOut` (firebase.ts line 67). -/
def signOut (a : AuthState) : AuthState :=
  { a with currentUser := none }

/-! ## Data model (`src/types/index.ts`) -/

/-- The `User` profile document: `{ id, name, dob }`. -/
structure UserDoc where
  id : String
  name : List Char
  dob : List Char
deriving DecidableEq

inductive MediaKind
  | image
  | video
deriving DecidableEq

/-- An `AlbumItem` without the server-assigned `id`:
`{ url, uploaderName, timestamp, type }`. -/
structure AlbumEntryData where
  url : String
  uploaderName : List Char
  timestamp : Int
  type : MediaKind
deriving DecidableEq

/-- External-service events an operation may perform.  A claim of the
form "no network call happens" is the statement that the trace of the
operation is `[]`. -/
inductive Event
  | ensureAuth
  | setUserDoc (key : String) (doc : UserDoc)
  | cloudUpload (uri : String)
  | addAlbum (entry : AlbumEntryData)
deriving DecidableEq

/-- State visible to the onboarding screen: the auth service plus the
`users` collection (a document per key). -/
structure OnboardState where
  auth : AuthState
  users : String → Option UserDoc

inductive SubmitResult
  | alertError (msg : String)
  | success
deriving DecidableEq

/-- `handleSubmit` from the onboarding screen: validate the two fields
(empty trimmed name, empty trimmed dob, dob shape), then ensure
authentication, build `userData` from the *trimmed* inputs, and write
it to `users/<uid>` (`db.collection('users').doc(uid).set(userData)`).
The success path of the network calls is modelled; the trace records
every external call made. -/
def handleSubmit (name dob : List Char) (st : OnboardState) :
    SubmitResult × OnboardState × List Event :=
  if (trimList name).isEmpty then
    (SubmitResult.alertError "Please enter your name", st, [])
  else if (trimList dob).isEmpty then
    (SubmitResult.alertError "Please enter your date of birth", st, [])
  else if !dateRegexTest dob then
    (SubmitResult.alertError "Please enter date in YYYY-MM-DD format", st, [])
  else
    let r := ensureAuthenticated st.auth
    let uid := r.1
    let userData : UserDoc := { id := uid, name := trimList name, dob := trimList dob }
    (SubmitResult.success,
     { auth := r.2,
       users := fun k => if k = uid then some userData else st.users k },
     [Event.ensureAuth, Event.setUserDoc uid userData])

/-! ## Roster fetch (`src/components/FriendsTab.tsx`)

`fetchUsers` reads one snapshot of the `users` collection and sorts it
with `usersList.sort((a, b) => a.name.localeCompare(b.name))`.
The locale-aware comparator is a parameter (its exact ordering depends
on the runtime locale); JavaScript's `Array.prototype.sort` guarantees
a sorted permutation of the input for any consistent comparator, which
we embed as insertion sort — a canonical such algorithm, chosen
structural so concrete instances compute. -/

def fetchUsers (localeCompare : List Char → List Char → Int)
    (docs : List UserDoc) : List UserDoc :=
  List.insertionSort (fun a b => localeCompare a.name b.name ≤ 0) docs

/-! ## Album feed (`src/components/AlbumTab.tsx`) -/

/-- Modelled from the spec: the hosted database's live query
`db.collection('albums').orderBy('timestamp', 'desc')` delivers, on
every change, the full current result set ordered by `timestamp`
descending; the `onSnapshot` callback in `AlbumTab` then pushes the
documents into `items` in that delivered order.  The ordering itself
is supplied by the hosted service (not code in this repository); here
the delivered list is the input set sorted descending by timestamp. -/
def albumSnapshotList (entries : List AlbumEntryData) : List AlbumEntryData :=
  List.insertionSort (fun a b => b.timestamp ≤ a.timestamp) entries

/-- State visible to the album screen: the auth service plus the
`albums` collection (server-keyed; modelled as the list of documents
in insertion order, `db.collection('albums').add` appends). -/
structure AlbumState where
  auth : AuthState
  albums : List AlbumEntryData

inductive UploadOutcome
  | alertError (msg : String)
  | alertSuccess
deriving DecidableEq

/-- `uploadMedia` from `AlbumTab`: refuse (with an alert) when no
current profile is loaded; otherwise ensure authentication, upload the
file to Cloudinary, and add the album entry.  The outcome of the
Cloudinary POST for a given URI is supplied by the `upload`
environment function; `now` is `Date.now()`. -/
def uploadMedia (uri : String) (ty : MediaKind) (currentUser : Option UserDoc)
    (upload : String → Except String String) (now : Int) (st : AlbumState) :
    UploadOutcome × AlbumState × List Event :=
  match currentUser with
  | none => (UploadOutcome.alertError "Please complete your profile first", st, [])
  | some user =>
    let r := ensureAuthenticated st.auth
    match upload uri with
    | Except.error _ =>
      (UploadOutcome.alertError "Failed to upload media. Please try again.",
       { st with auth := r.2 }, [Event.ensureAuth, Event.cloudUpload uri])
    | Except.ok cloudinaryUrl =>
      let albumItem : AlbumEntryData :=
        { url := cloudinaryUrl, uploaderName := user.name, timestamp := now, type := ty }
      (UploadOutcome.alertSuccess,
       { auth := r.2, albums := st.albums ++ [albumItem] },
       [Event.ensureAuth, Event.cloudUpload uri, Event.addAlbum albumItem])

/-! ## Cloudinary service (`src/services/cloudinary.ts`) -/

def CLOUD_NAME : String := "your-cloud-name"

/-- `uploadMultipleToCloudinary`: `Promise.all(fileUris.map(uri =>
uploadToCloudinary(uri, resourceType)))` — all uploads are attempted,
and if any rejects the whole batch rejects with a single error (the
`try/catch` merely logs and rethrows); only if every upload resolves
does the call resolve, with one URL per file.  The per-file outcome is
supplied by the `upload` environment function. -/
def uploadMultipleToCloudinary (upload : String → Except String String) :
    List String → Except String (List String)
  | [] => Except.ok []
  | uri :: rest =>
    match upload uri with
    | Except.error e => Except.error e
    | Except.ok url =>
      match uploadMultipleToCloudinary upload rest with
      | Except.error e => Except.error e
      | Except.ok urls => Except.ok (url :: urls)

inductive CloudQuality
  | auto
  | num (n : Int)
deriving DecidableEq

inductive CloudFormat
  | auto
  | webp
  | jpg
  | png
deriving DecidableEq

inductive CloudCrop
  | fill
  | fit
  | scale
  | crop
deriving DecidableEq

def qualityStr : CloudQuality → String
  | CloudQuality.auto => "auto"
  | CloudQuality.num n => toString n

def formatStr : CloudFormat → String
  | CloudFormat.auto => "auto"
  | CloudFormat.webp => "webp"
  | CloudFormat.jpg => "jpg"
  | CloudFormat.png => "png"

def cropStr : CloudCrop → String
  | CloudCrop.fill => "fill"
  | CloudCrop.fit => "fit"
  | CloudCrop.scale => "scale"
  | CloudCrop.crop => "crop"

/-- JavaScript truthiness of a `quality` value as tested by
`if (transformations.quality)`: the string `'auto'` is truthy, a
number is truthy unless it is `0`. -/
def qualityTruthy : CloudQuality → Bool
  | CloudQuality.auto => true
  | CloudQuality.num n => n ≠ 0

/-- The optional `transformations` argument of `getOptimizedImageUrl`. -/
structure Transformations where
  width : Option Int
  height : Option Int
  quality : Option CloudQuality
  format : Option CloudFormat
  crop : Option CloudCrop
deriving DecidableEq

/-- `getOptimizedImageUrl`: pushes `w_`, `h_`, `q_`, `f_`, `c_`
segments (in that order) for every option whose value is truthy under
`if (transformations.x)`, joins them with commas, and prefixes the
joined string with `/` only when at least one segment exists. -/
def getOptimizedImageUrl (publicId : String)
    (transformations : Option Transformations) : String :=
  let transformString :=
    match transformations with
    | none => ""
    | some t =>
      let transforms : List String :=
        (match t.width with
          | some w => if w ≠ 0 then ["w_" ++ toString w] else []
          | none => []) ++
        (match t.height with
          | some h => if h ≠ 0 then ["h_" ++ toString h] else []
          | none => []) ++
        (match t.quality with
          | some q => if qualityTruthy q then ["q_" ++ qualityStr q] else []
          | none => []) ++
        (match t.format with
          | some f => ["f_" ++ formatStr f]
          | none => []) ++
        (match t.crop with
          | some c => ["c_" ++ cropStr c]
          | none => [])
      if transforms.length > 0 then "/" ++ String.intercalate "," transforms else ""
  "https://res.cloudinary.com/" ++ CLOUD_NAME ++ "/image/upload" ++
    transformString ++ "/" ++ publicId

/-! ## Concrete instances used in witnesses and counterexamples -/

def exampleAuth : AuthState :=
  { currentUser := some "u1", freshUid := "u2" }

def exampleOnboardState : OnboardState :=
  { auth := exampleAuth, users := fun _ => none }

def exampleAlbumState : AlbumState :=
  { auth := exampleAuth, albums := [] }

/-- A concrete per-file upload outcome: one bad file, the rest succeed. -/
def exampleUpload : String → Except String String :=
  fun uri =>
    if uri = "bad.jpg" then Except.error "boom"
    else Except.ok ("https://cdn.example/" ++ uri)

/-- A concrete consistent comparator (compare by length), standing in
for a fixed-locale `localeCompare` in witnesses. -/
def lcLen : List Char → List Char → Int :=
  fun a b => if a.length ≤ b.length then -1 else 1

def exampleDocs : List UserDoc :=
  [ { id := "u3", name := "Charlie".toList, dob := "1990-01-01".toList },
    { id := "u1", name := "Al".toList, dob := "1991-02-02".toList },
    { id := "u2", name := "Bobby".toList, dob := "1992-03-03".toList } ]

def entryOld : AlbumEntryData :=
  { url := "https://cdn.example/old.jpg", uploaderName := "Ada".toList,
    timestamp := 1, type := MediaKind.image }

def entryMid : AlbumEntryData :=
  { url := "https://cdn.example/mid.mp4", uploaderName := "Bob".toList,
    timestamp := 3, type := MediaKind.video }

def entryNew : AlbumEntryData :=
  { url := "https://cdn.example/new.jpg", uploaderName := "Cal".toList,
    timestamp := 5, type := MediaKind.image }

/-! ## Helper lemmas -/

theorem isDigit_not_jsSpace {c : Char} (h : c.isDigit = true) :
    isJsSpace c = false := by
  cases hs : isJsSpace c with
  | false => rfl
  | true =>
    exfalso
    simp only [isJsSpace, Bool.or_eq_true, decide_eq_true_eq] at hs
    rcases hs with ((((rfl | rfl) | rfl) | rfl) | rfl) | rfl <;> exact absurd h (by decide)

/-- A string matching the date regex has no leading or trailing
whitespace (its first and last characters are digits), so `trim`
leaves it unchanged. -/
theorem trimList_of_dateRegex {l : List Char} (h : dateRegexTest l = true) :
    trimList l = l := by
  rcases l with _ | ⟨y1, _ | ⟨y2, _ | ⟨y3, _ | ⟨y4, _ | ⟨s1, _ | ⟨m1, _ | ⟨m2,
    _ | ⟨s2, _ | ⟨d1, _ | ⟨d2, _ | ⟨e, tl⟩⟩⟩⟩⟩⟩⟩⟩⟩⟩⟩ <;>
    simp only [dateRegexTest, Bool.and_eq_true, decide_eq_true_eq] at h <;>
    try exact Bool.noConfusion h
  obtain ⟨⟨⟨⟨⟨⟨⟨⟨⟨hy1, hy2⟩, hy3⟩, hy4⟩, hs1⟩, hm1⟩, hm2⟩, hs2⟩, hd1⟩, hd2⟩ := h
  simp [trimList, List.dropWhile, isDigit_not_jsSpace hy1, isDigit_not_jsSpace hd2]

theorem dateRegex_ne_nil {l : List Char} (h : dateRegexTest l = true) :
    l ≠ [] := by
  rcases l with _ | ⟨c, tl⟩
  · exact absurd h (by decide)
  · exact List.cons_ne_nil c tl

theorem isEmpty_false_of_ne_nil {l : List Char} (h : l ≠ []) :
    l.isEmpty = false := by
  cases l with
  | nil => exact absurd rfl h
  | cons a l => rfl

theorem lcLen_le_iff (a b : List Char) : lcLen a b ≤ 0 ↔ a.length ≤ b.length := by
  by_cases h : a.length ≤ b.length <;> simp [lcLen, h]

/-! ## Claims -/

/-- C4: `ensureAuthenticated` is idempotent within a device session
with no intervening sign-out: a second call returns the identity the
first call returned, and when an identity already exists it is
returned with the auth state unchanged. -/
theorem ensureAuthenticated_idempotent (a : AuthState) :
    (ensureAuthenticated (ensureAuthenticated a).2).1 = (ensureAuthenticated a).1 ∧
    (∀ u, a.currentUser = some u → ensureAuthenticated a = (u, a)) := by
  constructor
  · cases h : a.currentUser <;>
      simp [ensureAuthenticated, getCurrentUserUID, signInAnonymously, h]
  · intro u hu
    simp [ensureAuthenticated, getCurrentUserUID, hu]

theorem ensureAuthenticated_idempotent_witness :
    (ensureAuthenticated
        (ensureAuthenticated { currentUser := none, freshUid := "u2" }).2).1 =
      (ensureAuthenticated { currentUser := none, freshUid := "u2" }).1 ∧
    ensureAuthenticated { currentUser := some "u1", freshUid := "u2" } =
      ("u1", { currentUser := some "u1", freshUid := "u2" }) :=
  ⟨(ensureAuthenticated_idempotent { currentUser := none, freshUid := "u2" }).1,
   (ensureAuthenticated_idempotent { currentUser := some "u1", freshUid := "u2" }).2 "u1" rfl⟩

/-- C9: an album upload attempted while no current profile is loaded
performs no authentication call, no media upload and no database
write (empty event trace), reports an error alert, and leaves the
state unchanged. -/
theorem uploadMedia_requires_profile
    (uri : String) (ty : MediaKind) (currentUser : Option UserDoc)
    (upload : String → Except String String) (now : Int) (st : AlbumState)
    (h : currentUser = none) :
    uploadMedia uri ty currentUser upload now st =
      (UploadOutcome.alertError "Please complete your profile first", st, []) := by
  subst h
  rfl

theorem uploadMedia_requires_profile_witness :
    uploadMedia "file:///photo.jpg" MediaKind.image none exampleUpload 7 exampleAlbumState =
      (UploadOutcome.alertError "Please complete your profile first", exampleAlbumState, []) :=
  uploadMedia_requires_profile "file:///photo.jpg" MediaKind.image none exampleUpload 7
    exampleAlbumState rfl

/-- C5: `uploadMultipleToCloudinary` is all-or-nothing: if any single
file's upload fails the whole batch surfaces one aggregate error and
produces no URLs (including for files that would have succeeded), and
if every upload succeeds it returns the full list of URLs. -/
theorem uploadMultipleToCloudinary_all_or_nothing
    (upload : String → Except String String) (fileUris : List String) :
    ((∃ u ∈ fileUris, (upload u).isOk = false) →
      ∃ e, uploadMultipleToCloudinary upload fileUris = Except.error e) ∧
    ((∀ u ∈ fileUris, (upload u).isOk = true) →
      uploadMultipleToCloudinary upload fileUris =
        Except.ok (fileUris.map (fun u => (upload u).toOption.getD ""))) := by
  induction fileUris with
  | nil =>
    refine ⟨?_, ?_⟩
    · rintro ⟨u, hu, _⟩
      exact absurd hu (List.not_mem_nil u)
    · intro _
      rfl
  | cons uri rest ih =>
    refine ⟨?_, ?_⟩
    · rintro ⟨u, hu, hfail⟩
      rcases List.mem_cons.mp hu with rfl | hmem
      · cases hup : upload u with
        | error e => exact ⟨e, by simp [uploadMultipleToCloudinary, hup]⟩
        | ok v =>
          rw [hup] at hfail
          exact absurd hfail (by simp [Except.isOk, Except.toBool])
      · cases hup : upload uri with
        | error e => exact ⟨e, by simp [uploadMultipleToCloudinary, hup]⟩
        | ok v =>
          obtain ⟨e, he⟩ := ih.1 ⟨u, hmem, hfail⟩
          exact ⟨e, by simp [uploadMultipleToCloudinary, hup, he]⟩
    · intro hall
      have huri := hall uri (List.mem_cons_self uri rest)
      cases hup : upload uri with
      | error e =>
        rw [hup] at huri
        exact absurd huri (by simp [Except.isOk, Except.toBool])
      | ok v =>
        have hrest := ih.2 (fun u hu => hall u (List.mem_cons_of_mem _ hu))
        simp [uploadMultipleToCloudinary, hup, hrest, Except.toOption]

theorem uploadMultipleToCloudinary_all_or_nothing_witness :
    (∃ e, uploadMultipleToCloudinary exampleUpload ["a.jpg", "bad.jpg", "c.jpg"] =
      Except.error e) ∧
    uploadMultipleToCloudinary exampleUpload ["a.jpg", "c.jpg"] =
      Except.ok (["a.jpg", "c.jpg"].map (fun u => (exampleUpload u).toOption.getD "")) :=
  ⟨(uploadMultipleToCloudinary_all_or_nothing exampleUpload ["a.jpg", "bad.jpg", "c.jpg"]).1
      ⟨"bad.jpg", by decide, by decide⟩,
   (uploadMultipleToCloudinary_all_or_nothing exampleUpload ["a.jpg", "c.jpg"]).2
      (by decide)⟩

/-- C1 counterexample: with the valid (trimmed-nonempty) name
`" Ada "` and dob `"1990-12-25"`, the stored profile's `name` field is
the trimmed `"Ada"`, not the exact value the user entered — refuting
the claim that the stored `name` equals the exact entered value. -/
theorem handleSubmit_exact_values_counterexample :
    ∃ d : UserDoc,
      (handleSubmit (" Ada ".toList) ("1990-12-25".toList) exampleOnboardState).2.1.users "u1" =
        some d ∧ d.name ≠ " Ada ".toList := by
  refine ⟨{ id := "u1", name := "Ada".toList, dob := "1990-12-25".toList }, ?_, by decide⟩
  decide

/-- C1 (amended): for every submission with trimmed-nonempty name and
`YYYY-MM-DD`-shaped dob, `handleSubmit` writes exactly one profile
document, keyed by the identity returned by `ensureAuthenticated`,
whose `id` equals that identity, whose `name` equals the *trimmed*
entered name, and whose `dob` equals the entered dob exactly (a
regex-shaped dob is unchanged by trimming); every other key is left
untouched and the trace holds exactly one write. -/
theorem handleSubmit_writes_single_trimmed_profile
    (name dob : List Char) (st : OnboardState)
    (hname : trimList name ≠ [])
    (hdob : dateRegexTest dob = true) :
    (handleSubmit name dob st).1 = SubmitResult.success ∧
    (handleSubmit name dob st).2.1.users (ensureAuthenticated st.auth).1 =
      some { id := (ensureAuthenticated st.auth).1, name := trimList name, dob := dob } ∧
    (∀ k, k ≠ (ensureAuthenticated st.auth).1 →
      (handleSubmit name dob st).2.1.users k = st.users k) ∧
    (handleSubmit name dob st).2.2 =
      [Event.ensureAuth,
       Event.setUserDoc (ensureAuthenticated st.auth).1
         { id := (ensureAuthenticated st.auth).1, name := trimList name, dob := dob }] := by
  have htrim : trimList dob = dob := trimList_of_dateRegex hdob
  have h1 : (trimList name).isEmpty = false := isEmpty_false_of_ne_nil hname
  have h2 : (trimList dob).isEmpty = false := by
    rw [htrim]
    exact isEmpty_false_of_ne_nil (dateRegex_ne_nil hdob)
  have heq : handleSubmit name dob st =
      (SubmitResult.success,
       { auth := (ensureAuthenticated st.auth).2,
         users := fun k => if k = (ensureAuthenticated st.auth).1
           then some { id := (ensureAuthenticated st.auth).1,
                       name := trimList name, dob := dob }
           else st.users k },
       [Event.ensureAuth,
        Event.setUserDoc (ensureAuthenticated st.auth).1
          { id := (ensureAuthenticated st.auth).1,
            name := trimList name, dob := dob }]) := by
    simp [handleSubmit, h1, h2, hdob, htrim, dateRegex_ne_nil hdob]
  rw [heq]
  refine ⟨rfl, by simp, ?_, rfl⟩
  intro k hk
  simp [hk]

theorem handleSubmit_writes_single_trimmed_profile_witness :
    (handleSubmit ("Ada".toList) ("1990-12-25".toList) exampleOnboardState).1 =
      SubmitResult.success ∧
    (handleSubmit ("Ada".toList) ("1990-12-25".toList) exampleOnboardState).2.1.users
        (ensureAuthenticated exampleOnboardState.auth).1 =
      some { id := (ensureAuthenticated exampleOnboardState.auth).1,
             name := trimList ("Ada".toList), dob := "1990-12-25".toList } ∧
    (handleSubmit ("Ada".toList) ("1990-12-25".toList) exampleOnboardState).2.2 =
      [Event.ensureAuth,
       Event.setUserDoc (ensureAuthenticated exampleOnboardState.auth).1
         { id := (ensureAuthenticated exampleOnboardState.auth).1,
           name := trimList ("Ada".toList), dob := "1990-12-25".toList }] := by
  have H := handleSubmit_writes_single_trimmed_profile ("Ada".toList)
    ("1990-12-25".toList) exampleOnboardState (by decide) (by decide)
  exact ⟨H.1, H.2.1, H.2.2.2⟩

/-- C7: given a valid name, the onboarding submission proceeds (to the
network phase, ending in success in the modelled success path) exactly
when the dob matches the four-digits,hyphen,two,hyphen,two shape; the
calendrically invalid `"2024-02-30"` matches and proceeds. -/
theorem dob_validation_is_shape_only
    (name dob : List Char) (st : OnboardState)
    (hname : trimList name ≠ []) :
    ((handleSubmit name dob st).1 = SubmitResult.success ↔ dateRegexTest dob = true) ∧
    dateRegexTest ("2024-02-30".toList) = true := by
  have h1 : (trimList name).isEmpty = false := isEmpty_false_of_ne_nil hname
  constructor
  · cases hdob : dateRegexTest dob with
    | true =>
      have htrim := trimList_of_dateRegex hdob
      have h2 : (trimList dob).isEmpty = false := by
        rw [htrim]
        exact isEmpty_false_of_ne_nil (dateRegex_ne_nil hdob)
      simp [handleSubmit, h1, h2, hdob]
    | false =>
      by_cases h2 : (trimList dob).isEmpty = true
      · simp [handleSubmit, h1, h2, hdob]
      · simp [handleSubmit, h1, h2, hdob]
  · decide

theorem dob_validation_is_shape_only_witness :
    ((handleSubmit ("Ada".toList) ("2024-02-30".toList) exampleOnboardState).1 =
        SubmitResult.success ↔
      dateRegexTest ("2024-02-30".toList) = true) ∧
    dateRegexTest ("2024-02-30".toList) = true :=
  dob_validation_is_shape_only ("Ada".toList) ("2024-02-30".toList)
    exampleOnboardState (by decide)

/-- C8: a submission failing validation (empty trimmed name, empty
trimmed dob, or a dob not matching the date shape) returns an error
alert before any network operation: the event trace is empty and the
state (auth and stored documents) is unchanged. -/
theorem handleSubmit_validation_failure_no_network
    (name dob : List Char) (st : OnboardState)
    (h : trimList name = [] ∨ trimList dob = [] ∨ dateRegexTest dob = false) :
    (∃ msg, (handleSubmit name dob st).1 = SubmitResult.alertError msg) ∧
    (handleSubmit name dob st).2.1 = st ∧
    (handleSubmit name dob st).2.2 = [] := by
  by_cases h1 : (trimList name).isEmpty = true
  · refine ⟨⟨"Please enter your name", ?_⟩, ?_, ?_⟩ <;> simp [handleSubmit, h1]
  · by_cases h2 : (trimList dob).isEmpty = true
    · refine ⟨⟨"Please enter your date of birth", ?_⟩, ?_, ?_⟩ <;>
        simp [handleSubmit, h1, h2]
    · have h3 : dateRegexTest dob = false := by
        rcases h with h | h | h
        · exact absurd (by simp [h] : (trimList name).isEmpty = true) h1
        · exact absurd (by simp [h] : (trimList dob).isEmpty = true) h2
        · exact h
      refine ⟨⟨"Please enter date in YYYY-MM-DD format", ?_⟩, ?_, ?_⟩ <;>
        simp [handleSubmit, h1, h2, h3]

theorem handleSubmit_validation_failure_no_network_witness :
    (∃ msg, (handleSubmit ("   ".toList) ("1990-12-25".toList) exampleOnboardState).1 =
      SubmitResult.alertError msg) ∧
    (handleSubmit ("   ".toList) ("1990-12-25".toList) exampleOnboardState).2.1 =
      exampleOnboardState ∧
    (handleSubmit ("   ".toList) ("1990-12-25".toList) exampleOnboardState).2.2 = [] :=
  handleSubmit_validation_failure_no_network ("   ".toList) ("1990-12-25".toList)
    exampleOnboardState (Or.inl (by decide))

/-- C2: for any consistent locale comparator (total and transitive on
"comes no later than", as `localeCompare` is within one fixed locale)
and any fetched set of profile documents, the roster returned by
`fetchUsers` is sorted non-decreasing by name under that comparator;
on the empty set it returns the empty sequence rather than an error. -/
theorem fetchUsers_sorted_localeCompare
    (localeCompare : List Char → List Char → Int)
    (htotal : ∀ a b, localeCompare a b ≤ 0 ∨ localeCompare b a ≤ 0)
    (htrans : ∀ a b c, localeCompare a b ≤ 0 → localeCompare b c ≤ 0 →
      localeCompare a c ≤ 0)
    (docs : List UserDoc) :
    List.Sorted (fun a b : UserDoc => localeCompare a.name b.name ≤ 0)
      (fetchUsers localeCompare docs) ∧
    fetchUsers localeCompare [] = [] := by
  constructor
  · haveI : IsTotal UserDoc (fun a b => localeCompare a.name b.name ≤ 0) :=
      ⟨fun a b => htotal a.name b.name⟩
    haveI : IsTrans UserDoc (fun a b => localeCompare a.name b.name ≤ 0) :=
      ⟨fun a b c hab hbc => htrans a.name b.name c.name hab hbc⟩
    exact List.sorted_insertionSort _ docs
  · rfl

theorem fetchUsers_sorted_localeCompare_witness :
    List.Sorted (fun a b : UserDoc => lcLen a.name b.name ≤ 0)
      (fetchUsers lcLen exampleDocs) ∧
    fetchUsers lcLen [] = [] :=
  fetchUsers_sorted_localeCompare lcLen
    (fun a b => by
      rcases Nat.le_total a.length b.length with h | h
      · exact Or.inl ((lcLen_le_iff a b).mpr h)
      · exact Or.inr ((lcLen_le_iff b a).mpr h))
    (fun a b c hab hbc =>
      (lcLen_le_iff a c).mpr
        (Nat.le_trans ((lcLen_le_iff a b).mp hab) ((lcLen_le_iff b c).mp hbc)))
    exampleDocs

/-- C3: every list the album-feed subscriber receives is the current
entry set ordered by timestamp descending, so whenever the delivered
list is non-empty its first element has the maximum timestamp among
all current entries. -/
theorem albumSnapshot_first_has_max_timestamp
    (entries : List AlbumEntryData) (x : AlbumEntryData) (rest : List AlbumEntryData)
    (hdeliver : albumSnapshotList entries = x :: rest) :
    ∀ e ∈ entries, e.timestamp ≤ x.timestamp := by
  haveI : IsTotal AlbumEntryData (fun a b => b.timestamp ≤ a.timestamp) :=
    ⟨fun a b => le_total b.timestamp a.timestamp⟩
  haveI : IsTrans AlbumEntryData (fun a b => b.timestamp ≤ a.timestamp) :=
    ⟨fun a b c h1 h2 => le_trans h2 h1⟩
  intro e he
  have hmem : e ∈ albumSnapshotList entries := by
    unfold albumSnapshotList
    exact ((List.perm_insertionSort _ entries).mem_iff).mpr he
  have hsorted : List.Sorted (fun a b : AlbumEntryData => b.timestamp ≤ a.timestamp)
      (albumSnapshotList entries) := List.sorted_insertionSort _ entries
  rw [hdeliver] at hmem hsorted
  rcases List.mem_cons.mp hmem with rfl | hm
  · exact le_refl _
  · exact List.rel_of_sorted_cons hsorted e hm

theorem albumSnapshot_first_has_max_timestamp_witness :
    entryOld.timestamp ≤ entryNew.timestamp :=
  albumSnapshot_first_has_max_timestamp [entryOld, entryNew, entryMid]
    entryNew [entryMid, entryOld] (by decide) entryOld (by decide)

/-- C6: `getOptimizedImageUrl` builds the transform path by joining
with commas the segments of the present (truthy) options in the fixed
order width, height, quality, format, crop, with no validation of the
option values (any non-zero width/height and any truthy quality are
emitted as-is) — and on `publicId = "abc123"` with `{width: 200,
quality: 'auto'}` it returns exactly
`https://res.cloudinary.com/your-cloud-name/image/upload/w_200,q_auto/abc123`. -/
theorem getOptimizedImageUrl_fixed_order_and_example :
    (∀ (publicId : String) (w h : Int) (q : CloudQuality) (f : CloudFormat)
        (c : CloudCrop), w ≠ 0 → h ≠ 0 → qualityTruthy q = true →
      getOptimizedImageUrl publicId
          (some { width := some w, height := some h, quality := some q,
                  format := some f, crop := some c }) =
        "https://res.cloudinary.com/" ++ CLOUD_NAME ++ "/image/upload" ++
          ("/" ++ String.intercalate ","
            ["w_" ++ toString w, "h_" ++ toString h, "q_" ++ qualityStr q,
             "f_" ++ formatStr f, "c_" ++ cropStr c]) ++ "/" ++ publicId) ∧
    getOptimizedImageUrl "abc123"
        (some { width := some 200, height := none, quality := some CloudQuality.auto,
                format := none, crop := none }) =
      "https://res.cloudinary.com/your-cloud-name/image/upload/w_200,q_auto/abc123" := by
  constructor
  · intro publicId w h q f c hw hh hq
    simp [getOptimizedImageUrl, hw, hh, hq]
  · decide

theorem getOptimizedImageUrl_fixed_order_and_example_witness :
    getOptimizedImageUrl "img42"
        (some { width := some 300, height := some 150,
                quality := some (CloudQuality.num 80),
                format := some CloudFormat.webp, crop := some CloudCrop.fill }) =
      "https://res.cloudinary.com/" ++ CLOUD_NAME ++ "/image/upload" ++
        ("/" ++ String.intercalate ","
          ["w_" ++ toString (300 : Int), "h_" ++ toString (150 : Int),
           "q_" ++ qualityStr (CloudQuality.num 80),
           "f_" ++ formatStr CloudFormat.webp, "c_" ++ cropStr CloudCrop.fill]) ++
        "/" ++ "img42" :=
  getOptimizedImageUrl_fixed_order_and_example.1 "img42" 300 150
    (CloudQuality.num 80) CloudFormat.webp CloudCrop.fill
    (by decide) (by decide) (by decide)

/-- C10: a zero-valued numeric transform option (width, height, or
numeric quality `0`) is falsy under the `if (transformations.x)`
guards, so it produces exactly the same URL as omitting the option. -/
theorem getOptimizedImageUrl_zero_dropped
    (publicId : String) (t : Transformations) :
    getOptimizedImageUrl publicId (some { t with width := some 0 }) =
      getOptimizedImageUrl publicId (some { t with width := none }) ∧
    getOptimizedImageUrl publicId (some { t with height := some 0 }) =
      getOptimizedImageUrl publicId (some { t with height := none }) ∧
    getOptimizedImageUrl publicId (some { t with quality := some (CloudQuality.num 0) }) =
      getOptimizedImageUrl publicId (some { t with quality := none }) := by
  obtain ⟨w, h, q, f, c⟩ := t
  refine ⟨?_, ?_, ?_⟩ <;> simp [getOptimizedImageUrl, qualityTruthy]
